import Mathlib

/-!
Verification development for the Dataworker core of a cross-chain relayer:
bundle data loading, the three Merkle-root builders (slow relay, relayer
refund, pool rebalance), the pending-bundle validation state machine, and
the `toBN` numeric-string conversion helper.

The embedding follows the source closely.  External collaborators that are
not part of the analysed sources (SpokePool / HubPool / ConfigStore clients,
Merkle-tree primitives, and the `FillUtils` / `PoolRebalanceUtils` /
`DepositUtils` helper modules) are modelled as abstract function fields of
the `Dataworker` record: they are part of the fixed snapshot an invocation
runs against.  Token amounts are exact integers (`Int`), chain ids, block
numbers, deposit ids and addresses (relayers, tokens, depositors; ordered
canonically) are `Nat`, and Merkle roots are hex strings (`String`).
-/

/-- Hex-encoded Merkle roots as read from or submitted to the chain. -/
abbrev Root := String

/-! ### FormattingUtils: the `toBN` conversion -/

/-- Numeric value of a list of decimal digit characters. -/
def digitsVal (cs : List Char) : Nat :=
  cs.foldl (fun acc c => acc * 10 + (c.toNat - '0'.toNat)) 0

/-- Longest leading run of decimal digits, or `none` when there is none
(JavaScript `parseInt` yields `NaN` in that case). -/
def jsParseDigits (cs : List Char) : Option Nat :=
  let digits := cs.takeWhile Char.isDigit
  if digits.isEmpty then none else some (digitsVal digits)

/-- Model of JavaScript `parseInt` applied to a string: skip leading spaces,
read an optional sign, then the longest decimal-digit prefix; `none` models
`NaN` when no digit is found.  Fractional parts after the digits are
discarded, which is the truncation `toBN` relies on.  The model returns the
exact integer value of the digit run, whereas the real `parseInt` returns
the nearest IEEE-754 double: both agree for magnitudes below 2^53, and a
run of magnitude 2^53 or more rounds to a double of magnitude at least
2^53, which the safe-number bound of `bigNumberFromParsedInt` rejects
either way, so the composition `toBN` is extensionally faithful. -/
def jsParseInt (s : String) : Option Int :=
  match s.data.dropWhile (fun c => c = ' ') with
  | [] => none
  | c :: rest =>
    if c = '-' then (jsParseDigits rest).map (fun v => -(v : Int))
    else if c = '+' then (jsParseDigits rest).map (fun v => (v : Int))
    else (jsParseDigits (c :: rest)).map (fun v => (v : Int))

/-- The ethers v5 safe-number bound `MAX_SAFE = 0x1fffffffffffff`
(2^53 - 1): `BigNumber.from` on a number throws "overflow" at or beyond
it. -/
def MAX_SAFE : Int := 9007199254740991

/-- Model of `ethers.BigNumber.from` applied to the (number) result of
`parseInt`: `NaN` (`none`) throws "invalid BigNumber value", a value `v`
with `v >= MAX_SAFE || v <= -MAX_SAFE` throws "overflow" (the ethers v5
number path), and any other value becomes that exact integer.  The
fractional-underflow throw of ethers cannot fire here because `parseInt`
always yields an integral double. -/
def bigNumberFromParsedInt : Option Int → Except String Int
  | none => Except.error "invalid BigNumber value"
  | some v =>
    if v ≥ MAX_SAFE ∨ v ≤ -MAX_SAFE then Except.error "overflow"
    else Except.ok v

/-- Model of `ethers.BigNumber.from` applied to a string: an optional minus
sign followed by at least one decimal digit parses to that integer; anything
else throws. -/
def bigNumberFromString (s : String) : Except String Int :=
  match s.data with
  | '-' :: r =>
    if r.isEmpty then Except.error "invalid BigNumber string"
    else if r.all Char.isDigit then Except.ok (-(digitsVal r : Int))
    else Except.error "invalid BigNumber string"
  | r =>
    if r.isEmpty then Except.error "invalid BigNumber string"
    else if r.all Char.isDigit then Except.ok ((digitsVal r : Int))
    else Except.error "invalid BigNumber string"

/-- Embedding of `toBN` (src/src/utils/FormattingUtils.ts, lines 10-14): if
the string representation contains a dot, parse it with `parseInt` and hand
the result to `BigNumber.from`; otherwise hand the string itself to
`BigNumber.from`. -/
def toBN (s : String) : Except String Int :=
  if s.data.contains '.' then bigNumberFromParsedInt (jsParseInt s)
  else bigNumberFromString s

/-! ### Shared data model -/

/-- Modelled from the spec: `compareAddresses` (imported from `../utils`,
whose source is not included): canonical address comparison returning
-1 / 0 / 1, a total order on addresses. -/
def compareAddresses (a b : Nat) : Int :=
  if a < b then -1 else if b < a then 1 else 0

/-- Deposit event data (interfaces module). -/
structure Deposit where
  depositor : Nat
  recipient : Nat
  destinationToken : Nat
  amount : Int
  originChainId : Nat
  destinationChainId : Nat
  realizedLpFeePct : Int
  relayerFeePct : Int
  depositId : Nat
  quoteTimestamp : Nat
deriving DecidableEq, Repr

/-- Deposit together with its origin-chain block number. -/
structure DepositWithBlock where
  deposit : Deposit
  blockNumber : Nat
deriving DecidableEq, Repr

/-- Fill event data: the deposit fields plus fill-specific fields. -/
structure Fill where
  depositor : Nat
  recipient : Nat
  destinationToken : Nat
  amount : Int
  originChainId : Nat
  destinationChainId : Nat
  realizedLpFeePct : Int
  relayerFeePct : Int
  depositId : Nat
  fillAmount : Int
  totalFilledAmount : Int
  repaymentChainId : Nat
  relayer : Nat
  isSlowRelay : Bool
deriving DecidableEq, Repr

/-- Fill together with its destination-chain block coordinates.  Destructuring
`const (blockNumber, transactionIndex, logIndex, ...fill)` in the source
corresponds to the `fill` projection here. -/
structure FillWithBlock where
  fill : Fill
  blockNumber : Nat
  transactionIndex : Nat
  logIndex : Nat
deriving DecidableEq, Repr

/-- Residue of a deposit that still needs a slow relay. -/
structure UnfilledDeposit where
  deposit : Deposit
  unfilledAmount : Int
  hasFirstFillInRange : Bool
deriving DecidableEq, Repr

/-- Slow-relay leaf: the nine on-chain relay-data fields. -/
structure RelayData where
  depositor : Nat
  recipient : Nat
  destinationToken : Nat
  amount : Int
  originChainId : Nat
  destinationChainId : Nat
  realizedLpFeePct : Int
  relayerFeePct : Int
  depositId : Nat
deriving DecidableEq, Repr

/-- Per-(repaymentChain, l2Token) refund bookkeeping inside `fillsToRefund`.
`refunds` is the relayer-address-to-amount map, kept as an association list
whose keys are unique (JavaScript object keys are unique strings). -/
structure RefundData where
  totalRefundAmount : Int
  realizedLpFees : Int
  fills : List Fill
  refunds : List (Nat × Int)
deriving DecidableEq, Repr

/-- The three-level `fillsToRefund` mapping, as an association list in
iteration order: repaymentChainId, then l2TokenAddress, then refund data. -/
abbrev FillsToRefund := List (Nat × List (Nat × RefundData))

/-- Intermediate unfilled-deposit bookkeeping keyed by origin chain. -/
abbrev UnfilledDepositsForOriginChain := List (Nat × List UnfilledDeposit)

/-- Running balances (and realized LP fees): chainId, then L1 token, to a
signed amount. -/
abbrev RunningBalances := List (Nat × List (Nat × Int))

/-- Pool-rebalance leaf with index-aligned token vectors. -/
structure PoolRebalanceLeaf where
  chainId : Nat
  groupIndex : Nat
  bundleLpFees : List Int
  netSendAmounts : List Int
  runningBalances : List Int
  l1Tokens : List Nat
  leafId : Nat
deriving DecidableEq, Repr

/-- Relayer-refund leaf during construction, carrying the transient
`groupIndex` used only to order sub-leaves of one refund group. -/
structure RelayerRefundLeafWithGroup where
  groupIndex : Nat
  amountToReturn : Int
  chainId : Nat
  refundAmounts : List Int
  leafId : Nat
  l2TokenAddress : Nat
  refundAddresses : List Nat
deriving DecidableEq, Repr

/-- Final relayer-refund leaf: no `groupIndex` field. -/
structure RelayerRefundLeaf where
  amountToReturn : Int
  chainId : Nat
  refundAmounts : List Int
  leafId : Nat
  l2TokenAddress : Nat
  refundAddresses : List Nat
deriving DecidableEq, Repr

/-! ### The Dataworker snapshot

Configuration plus every external collaborator consulted by the analysed
functions, frozen as pure function fields.  A fixed `Dataworker` value is
exactly the "fixed snapshot of deposits, fills, and configuration (clients
held constant)" the determinism claim speaks about. -/

structure Dataworker where
  chainIdListForBundleEvaluationBlockNumbers : List Nat
  maxRefundCountOverride : Option Nat
  tokenTransferThreshold : List (Nat × Int)
  /-- Chain ids of the spoke pool clients, in iteration order
  (`Object.keys(this.clients.spokePoolSigners)`). -/
  spokeChainIds : List Nat
  /-- `destinationClient.getFillsWithBlockForOriginChain(originChainId)`:
  first argument is the destination chain, second the origin chain. -/
  fillsForOriginChain : Nat → Nat → List FillWithBlock
  /-- `originClient.getDepositForFill(fill)`: first argument is the origin
  chain whose client is consulted. -/
  getDepositForFill : Nat → FillWithBlock → Option Deposit
  /-- `getUniqueDepositsInRange(blockRanges, originChain, destinationChain,
  chainIdList, originClient, deposits)` from `DepositUtils` (not under
  `src/`), abstracted with the chain-id list and client absorbed. -/
  getUniqueDepositsInRange :
    List (Nat × Nat) → Nat → Nat → List DepositWithBlock → List DepositWithBlock
  /-- `getRefundInformationFromFill` from `FillUtils` (not under `src/`):
  yields (chainToSendRefundTo, repaymentToken). -/
  getRefundInformationFromFill : Fill → Nat × Nat
  /-- `updateFillsToRefundWithValidFill` from `FillUtils` (not under `src/`). -/
  updateFillsToRefundWithValidFill : FillsToRefund → Fill → Nat → Nat → FillsToRefund
  /-- `updateFillsToRefundWithSlowFill` from `FillUtils` (not under `src/`). -/
  updateFillsToRefundWithSlowFill : FillsToRefund → Fill → Nat → Nat → FillsToRefund
  /-- `updateUnfilledDepositsWithMatchedDeposit` from `DepositUtils`
  (not under `src/`). -/
  updateUnfilledDepositsWithMatchedDeposit :
    Fill → Deposit → UnfilledDepositsForOriginChain → UnfilledDepositsForOriginChain
  /-- `flattenAndFilterUnfilledDepositsByOriginChain` from `DepositUtils`
  (not under `src/`). -/
  flattenAndFilterUnfilledDepositsByOriginChain :
    UnfilledDepositsForOriginChain → List UnfilledDeposit
  /-- ConfigStore client lookup of the refund-count cap at a mainnet block. -/
  getMaxRefundCountForRelayerRefundLeafForBlock : Nat → Nat
  /-- ConfigStore client lookup of the transfer threshold for an L1 token. -/
  getTokenTransferThresholdForBlock : Nat → Nat → Int
  /-- HubPool client: L1 counterpart of an L2 token on a chain at a block. -/
  getL1TokenCounterpartAtBlock : Nat → Nat → Nat → Nat
  /-- HubPool client: L2 counterpart of an L1 token on a destination chain. -/
  getDestinationTokenForL1TokenDestinationChainId : Nat → Nat → Nat
  /-- `PoolRebalanceUtils.initializeRunningBalancesFromRelayerRepayments`
  (not under `src/`): yields (runningBalances, realizedLpFees). -/
  initializeRunningBalancesFromRelayerRepayments :
    Nat → FillsToRefund → RunningBalances × RunningBalances
  /-- `PoolRebalanceUtils.subtractExcessFromPreviousSlowFillsFromRunningBalances`
  (not under `src/`), returning the adjusted balances. -/
  subtractExcessFromPreviousSlowFillsFromRunningBalances :
    RunningBalances → List FillWithBlock → RunningBalances
  /-- `PoolRebalanceUtils.updateRunningBalanceForDeposit` (not under `src/`),
  returning the adjusted balances. -/
  updateRunningBalanceForDeposit :
    RunningBalances → DepositWithBlock → Int → RunningBalances
  /-- `PoolRebalanceUtils.constructPoolRebalanceLeaves` (not under `src/`),
  with the config-store client and overrides absorbed. -/
  constructPoolRebalanceLeaves :
    Nat → RunningBalances → RunningBalances → List PoolRebalanceLeaf
  /-- `PoolRebalanceUtils.getNetSendAmountForL1Token` (not under `src/`):
  arguments are the transfer threshold and the running balance. -/
  getNetSendAmountForL1Token : Int → Int → Int
  /-- Merkle primitive `buildSlowRelayTree`, abstracted to its root. -/
  buildSlowRelayTree : List RelayData → Root
  /-- Merkle primitive `buildRelayerRefundTree`, abstracted to its root. -/
  buildRelayerRefundTree : List RelayerRefundLeaf → Root
  /-- Merkle primitive `buildPoolRebalanceLeafTree`, abstracted to its root. -/
  buildPoolRebalanceLeafTree : List PoolRebalanceLeaf → Root

/-- Modelled from the spec: `getBlockRangeForChain` from `DataworkerUtils`
(not under `src/`): the block range at the chain's index in the fixed
chain-id list. -/
def getBlockRangeForChain (blockRanges : List (Nat × Nat)) (chainId : Nat)
    (chainIdList : List Nat) : Nat × Nat :=
  match List.findIdx? (fun c => c = chainId) chainIdList with
  | some i => blockRanges.getD i (0, 0)
  | none => (0, 0)

/-! ### Bundle data loading (`_loadData`, lines 50-195) -/

/-- Mutable state threaded through the fill loop of `_loadData`.
`creditedFills` is a ghost field recording exactly the fills passed to
`updateFillsToRefundWithValidFill`; it exists only to state which fills
contribute to refunds. -/
structure LoadState where
  unfilledDepositsForOriginChain : UnfilledDepositsForOriginChain
  fillsToRefund : FillsToRefund
  deposits : List DepositWithBlock
  allValidFills : List FillWithBlock
  allInvalidFills : List FillWithBlock
  creditedFills : List FillWithBlock

/-- Empty initial load state (lines 69-73). -/
def initLoadState : LoadState := ⟨[], [], [], [], [], []⟩

/-- Refund crediting applied to a valid in-range fill (lines 133-150):
always `updateFillsToRefundWithValidFill`, and additionally
`updateFillsToRefundWithSlowFill` when the fill is not a slow relay. -/
def applyRefundCredits (d : Dataworker) (ftr : FillsToRefund) (fillWithBlock : FillWithBlock) :
    FillsToRefund :=
  let fill := fillWithBlock.fill
  let info := d.getRefundInformationFromFill fill
  let ftr1 := d.updateFillsToRefundWithValidFill ftr fill info.1 info.2
  if !fill.isSlowRelay then d.updateFillsToRefundWithSlowFill ftr1 fill info.1 info.2
  else ftr1

/-- Unfilled-deposit update applied to a valid in-range fill (line 145):
`updateUnfilledDepositsWithMatchedDeposit` with the deposit matched by the
origin client.  On a fill without a match it is the identity; `processFill`
only reaches it when a match exists. -/
def applyUnfilledDepositUpdate (d : Dataworker) (originChainId : Nat)
    (m : UnfilledDepositsForOriginChain) (fillWithBlock : FillWithBlock) :
    UnfilledDepositsForOriginChain :=
  match d.getDepositForFill originChainId fillWithBlock with
  | none => m
  | some matchedDeposit =>
    d.updateUnfilledDepositsWithMatchedDeposit fillWithBlock.fill matchedDeposit m

/-- Body of the per-fill callback in `_loadData` (lines 111-152). -/
def processFill (d : Dataworker) (blockRangeForChain : Nat × Nat) (originChainId : Nat)
    (st : LoadState) (fillWithBlock : FillWithBlock) : LoadState :=
  match d.getDepositForFill originChainId fillWithBlock with
  | none => { st with allInvalidFills := st.allInvalidFills ++ [fillWithBlock] }
  | some matchedDeposit =>
    let st1 := { st with allValidFills := st.allValidFills ++ [fillWithBlock] }
    if fillWithBlock.blockNumber > blockRangeForChain.2
        || fillWithBlock.blockNumber < blockRangeForChain.1 then st1
    else
      let fill := fillWithBlock.fill
      let st2 := { st1 with
        fillsToRefund := applyRefundCredits d st1.fillsToRefund fillWithBlock,
        creditedFills := st1.creditedFills ++ [fillWithBlock] }
      { st2 with
        unfilledDepositsForOriginChain :=
          d.updateUnfilledDepositsWithMatchedDeposit fill matchedDeposit
            st2.unfilledDepositsForOriginChain }

/-- The three-way classification of a fill seen by a destination client:
no matching deposit, matched but outside the destination block range, or
matched and in range. -/
inductive FillClass where
  | invalid
  | validOutOfRange
  | validInRange
deriving DecidableEq, Repr

/-- Classification of one fill, read off the guards of `processFill`. -/
def classifyFill (d : Dataworker) (blockRangeForChain : Nat × Nat) (originChainId : Nat)
    (f : FillWithBlock) : FillClass :=
  match d.getDepositForFill originChainId f with
  | none => .invalid
  | some _ =>
    if f.blockNumber > blockRangeForChain.2 || f.blockNumber < blockRangeForChain.1 then
      .validOutOfRange
    else .validInRange

/-- The fill loop run by `_loadData` against one destination client for one
origin chain (the `forEach` of line 111). -/
def processFillsForOriginChain (d : Dataworker) (blockRangeForChain : Nat × Nat)
    (originChainId : Nat) (st : LoadState) (fills : List FillWithBlock) : LoadState :=
  fills.foldl (processFill d blockRangeForChain originChainId) st

/-- One (origin, destination) iteration of `_loadData` (lines 88-153). -/
def loadDataStep (d : Dataworker) (blockRangesForChains : List (Nat × Nat))
    (originChainId : Nat) (st : LoadState) (destinationChainId : Nat) : LoadState :=
  if originChainId = destinationChainId then st
  else
    let st1 := { st with deposits :=
      st.deposits ++ (d.getUniqueDepositsInRange blockRangesForChains originChainId
        destinationChainId st.deposits) }
    let blockRangeForChain := getBlockRangeForChain blockRangesForChains destinationChainId
      d.chainIdListForBundleEvaluationBlockNumbers
    processFillsForOriginChain d blockRangeForChain originChainId st1
      (d.fillsForOriginChain destinationChainId originChainId)

/-- Return type of `_loadData`. -/
structure LoadDataOutput where
  unfilledDeposits : List UnfilledDeposit
  fillsToRefund : FillsToRefund
  allValidFills : List FillWithBlock
  deposits : List DepositWithBlock

/-- Embedding of `_loadData` (lines 50-195).  The precondition throws of
lines 59-67 (clients updated, block-range length) are assumed satisfied by
the snapshot; they abort before any data is produced and no claim under
verification concerns them. -/
def _loadData (d : Dataworker) (blockRangesForChains : List (Nat × Nat)) : LoadDataOutput :=
  let final := d.spokeChainIds.foldl
    (fun st originChainId =>
      d.spokeChainIds.foldl (loadDataStep d blockRangesForChains originChainId) st)
    initLoadState
  { unfilledDeposits :=
      d.flattenAndFilterUnfilledDepositsByOriginChain final.unfilledDepositsForOriginChain,
    fillsToRefund := final.fillsToRefund,
    allValidFills := final.allValidFills,
    deposits := final.deposits }

/-! ### Slow relay root (lines 197-227) -/

/-- Projection of an unfilled deposit onto the nine relay-data fields
(lines 201-213). -/
def toRelayData (u : UnfilledDeposit) : RelayData :=
  { depositor := u.deposit.depositor,
    recipient := u.deposit.recipient,
    destinationToken := u.deposit.destinationToken,
    amount := u.deposit.amount,
    originChainId := u.deposit.originChainId,
    destinationChainId := u.deposit.destinationChainId,
    realizedLpFeePct := u.deposit.realizedLpFeePct,
    relayerFeePct := u.deposit.relayerFeePct,
    depositId := u.deposit.depositId }

/-- The slow-relay sort comparator (lines 217-221): difference of origin
chain ids, or of deposit ids when the chains coincide.  It is total: on a
full tie it returns 0 rather than raising. -/
def slowRelayComparator (relayA relayB : RelayData) : Int :=
  if relayA.originChainId = relayB.originChainId then
    (relayA.depositId : Int) - (relayB.depositId : Int)
  else (relayA.originChainId : Int) - (relayB.originChainId : Int)

/-- Non-strict order induced by the slow-relay comparator, used by the
stable sort. -/
def slowRelayLe (relayA relayB : RelayData) : Bool :=
  decide (slowRelayComparator relayA relayB ≤ 0)

/-- Return type of `buildSlowRelayRoot`: sorted leaves plus the tree root. -/
structure SlowRelayRootResult where
  leaves : List RelayData
  treeRoot : Root
deriving DecidableEq, Repr

/-- Embedding of `buildSlowRelayRoot` (lines 197-227). -/
def buildSlowRelayRoot (d : Dataworker) (blockRangesForChains : List (Nat × Nat)) :
    SlowRelayRootResult :=
  let out := _loadData d blockRangesForChains
  let slowRelayLeaves := out.unfilledDeposits.map toRelayData
  let sortedLeaves := slowRelayLeaves.mergeSort slowRelayLe
  { leaves := sortedLeaves, treeRoot := d.buildSlowRelayTree sortedLeaves }

/-! ### Pool rebalance root (lines 346-409) -/

/-- Return type of `buildPoolRebalanceRoot`. -/
structure PoolRebalanceRootResult where
  runningBalances : RunningBalances
  realizedLpFees : RunningBalances
  leaves : List PoolRebalanceLeaf
  treeRoot : Root

/-- Embedding of `buildPoolRebalanceRoot` (lines 346-409): initialise running
balances from refunds, correct for previous slow fills, subtract in-range
deposit amounts, then emit leaves and the tree. -/
def buildPoolRebalanceRoot (d : Dataworker) (blockRangesForChains : List (Nat × Nat)) :
    PoolRebalanceRootResult :=
  let out := _loadData d blockRangesForChains
  let endBlockForMainnet := (getBlockRangeForChain blockRangesForChains 1
    d.chainIdListForBundleEvaluationBlockNumbers).2
  let init := d.initializeRunningBalancesFromRelayerRepayments endBlockForMainnet
    out.fillsToRefund
  let rb1 := d.subtractExcessFromPreviousSlowFillsFromRunningBalances init.1 out.allValidFills
  let rb2 := out.deposits.foldl
    (fun rb dep => d.updateRunningBalanceForDeposit rb dep (dep.deposit.amount * (-1))) rb1
  let leaves := d.constructPoolRebalanceLeaves endBlockForMainnet rb2 init.2
  { runningBalances := rb2, realizedLpFees := init.2, leaves := leaves,
    treeRoot := d.buildPoolRebalanceLeafTree leaves }

/-! ### Relayer refund root (lines 229-344 and 967-988) -/

/-- Lookup in a two-level association map, defaulting to 0. -/
def lookupNested (m : RunningBalances) (chainId : Nat) (token : Nat) : Int :=
  match m.find? (fun p => p.1 = chainId) with
  | none => 0
  | some p =>
    match p.2.find? (fun q => q.1 = token) with
    | none => 0
    | some q => q.2

/-- Constructor-supplied per-L1-token threshold override, when present
(the `this.tokenTransferThreshold[l1Token] || ...` lookup of line 980). -/
def lookupThresholdOverride (overrides : List (Nat × Int)) (token : Nat) : Option Int :=
  (overrides.find? (fun p => p.1 = token)).map Prod.snd

/-- The net send amount consulted by `_getAmountToReturnForRelayerRefundLeaf`
(lines 973-986): resolve the L1 counterpart, its running balance and
transfer threshold, and apply the threshold policy. -/
def netSendAmountForLeaf (d : Dataworker) (endBlockForMainnet : Nat) (leafChainId : Nat)
    (leafToken : Nat) (poolRebalanceRunningBalances : RunningBalances) : Int :=
  let l1TokenCounterpart := d.getL1TokenCounterpartAtBlock leafChainId leafToken
    endBlockForMainnet
  let runningBalanceForLeaf := lookupNested poolRebalanceRunningBalances leafChainId
    l1TokenCounterpart
  let transferThreshold := (lookupThresholdOverride d.tokenTransferThreshold
    l1TokenCounterpart).getD
    (d.getTokenTransferThresholdForBlock l1TokenCounterpart endBlockForMainnet)
  d.getNetSendAmountForL1Token transferThreshold runningBalanceForLeaf

/-- Embedding of `_getAmountToReturnForRelayerRefundLeaf` (lines 967-988):
`netSend * (-1) > 0 ? netSend * (-1) : 0`. -/
def _getAmountToReturnForRelayerRefundLeaf (d : Dataworker) (endBlockForMainnet : Nat)
    (leafChainId : Nat) (leafToken : Nat)
    (poolRebalanceRunningBalances : RunningBalances) : Int :=
  let netSendAmountForLeaf := netSendAmountForLeaf d endBlockForMainnet leafChainId leafToken
    poolRebalanceRunningBalances
  if netSendAmountForLeaf * (-1) > 0 then netSendAmountForLeaf * (-1) else 0

/-- The refund-count cap used at lines 268-270: the override when set,
otherwise the ConfigStore value at the bundle-end mainnet block. -/
def maxRefundCountFor (d : Dataworker) (endBlockForMainnet : Nat) : Nat :=
  d.maxRefundCountOverride.getD
    (d.getMaxRefundCountForRelayerRefundLeafForBlock endBlockForMainnet)

/-- Amount credited to a refund address in a refund group, defaulting to 0
(`refunds[address]`). -/
def lookupRefund (refunds : List (Nat × Int)) (address : Nat) : Int :=
  match refunds.find? (fun p => p.1 = address) with
  | none => 0
  | some p => p.2

/-- Non-strict order induced by the refund-address comparator of lines
250-256: refund amount descending, then canonical address ascending.  The
source throws on a full tie, which cannot occur for the distinct keys of a
refunds object; on such a tie this order returns true on both sides. -/
def refundAddressLe (refunds : List (Nat × Int)) (addressA addressB : Nat) : Bool :=
  let ra := lookupRefund refunds addressA
  let rb := lookupRefund refunds addressB
  decide (rb < ra) || (decide (ra = rb) && decide (compareAddresses addressA addressB ≤ 0))

/-- Refund recipients of a group sorted for leaf construction (lines 250-256). -/
def sortedRefundAddressesFor (refunds : List (Nat × Int)) : List Nat :=
  (refunds.map Prod.fst).mergeSort (refundAddressLe refunds)

/-- The chunking loop of lines 271-281: `for (let i = 0; i < n; i += max)`
over the sorted addresses, emitting one sub-leaf per slice.  Each step
consumes `take maxRefundCount` of the remainder; since the remainder is
nonempty, `drop maxRefundCount (a :: rest) = drop (maxRefundCount - 1) rest`
for every positive `maxRefundCount` (the source loop does not terminate at
all when the cap is 0). -/
def chunkRefunds (maxRefundCount : Nat) (amountToReturn : Int) (repaymentChainId : Nat)
    (l2TokenAddress : Nat) (refunds : List (Nat × Int)) :
    Nat → List Nat → List RelayerRefundLeafWithGroup
  | _, [] => []
  | i, a :: rest =>
    { groupIndex := i,
      amountToReturn := if i = 0 then amountToReturn else 0,
      chainId := repaymentChainId,
      refundAmounts := ((a :: rest).take maxRefundCount).map (lookupRefund refunds),
      leafId := 0,
      l2TokenAddress := l2TokenAddress,
      refundAddresses := (a :: rest).take maxRefundCount } ::
    chunkRefunds maxRefundCount amountToReturn repaymentChainId l2TokenAddress refunds
      (i + maxRefundCount) (rest.drop (maxRefundCount - 1))
  termination_by i addrs => addrs.length
  decreasing_by simp [List.length_drop]; omega

/-- Phase A of `buildRelayerRefundRoot` for one (repaymentChainId, l2Token)
group (lines 245-282): sort the recipients, derive the amount to return,
and chunk into sub-leaves of size at most the refund-count cap. -/
def refundGroupLeaves (d : Dataworker) (endBlockForMainnet : Nat)
    (runningBalances : RunningBalances) (repaymentChainId : Nat) (l2TokenAddress : Nat)
    (refunds : List (Nat × Int)) : List RelayerRefundLeafWithGroup :=
  let sortedRefundAddresses := sortedRefundAddressesFor refunds
  let amountToReturn := _getAmountToReturnForRelayerRefundLeaf d endBlockForMainnet
    repaymentChainId l2TokenAddress runningBalances
  chunkRefunds (maxRefundCountFor d endBlockForMainnet) amountToReturn repaymentChainId
    l2TokenAddress refunds 0 sortedRefundAddresses

/-- Phase B of `buildRelayerRefundRoot` (lines 287-321): for every pool
rebalance leaf position with a negative net send amount whose (chainId,
l2Token) pair has no refund leaf yet, append a return-only leaf. -/
def addReturnOnlyLeaves (d : Dataworker) (endBlockForMainnet : Nat)
    (runningBalances : RunningBalances) (poolLeaves : List PoolRebalanceLeaf)
    (acc0 : List RelayerRefundLeafWithGroup) : List RelayerRefundLeafWithGroup :=
  poolLeaves.foldl
    (fun acc leaf =>
      (leaf.netSendAmounts.zip leaf.l1Tokens).foldl
        (fun acc p =>
          if p.1 ≥ 0 then acc
          else
            let l2TokenCounterpart :=
              d.getDestinationTokenForL1TokenDestinationChainId p.2 leaf.chainId
            if acc.any (fun rl =>
                rl.chainId = leaf.chainId && rl.l2TokenAddress = l2TokenCounterpart) then acc
            else acc ++
              [{ groupIndex := 0,
                 leafId := 0,
                 chainId := leaf.chainId,
                 amountToReturn := _getAmountToReturnForRelayerRefundLeaf d endBlockForMainnet
                   leaf.chainId l2TokenCounterpart runningBalances,
                 l2TokenAddress := l2TokenCounterpart,
                 refundAddresses := [],
                 refundAmounts := [] }])
        acc)
    acc0

/-- Non-strict order induced by the final leaf comparator of lines 326-333:
chainId ascending, then canonical l2 token address ascending, then
groupIndex ascending.  The source throws on a full tie; this order returns
true on both sides there. -/
def relayerRefundLeafLe (leafA leafB : RelayerRefundLeafWithGroup) : Bool :=
  if leafA.chainId ≠ leafB.chainId then decide (leafA.chainId < leafB.chainId)
  else if compareAddresses leafA.l2TokenAddress leafB.l2TokenAddress ≠ 0 then
    decide (compareAddresses leafA.l2TokenAddress leafB.l2TokenAddress ≤ 0)
  else decide (leafA.groupIndex ≤ leafB.groupIndex)

/-- Final projection of lines 334-338: discard `groupIndex` and assign the
traversal-order `leafId`. -/
def stripGroupIndex (leaf : RelayerRefundLeafWithGroup) (i : Nat) : RelayerRefundLeaf :=
  { amountToReturn := leaf.amountToReturn,
    chainId := leaf.chainId,
    refundAmounts := leaf.refundAmounts,
    leafId := i,
    l2TokenAddress := leaf.l2TokenAddress,
    refundAddresses := leaf.refundAddresses }

/-- All construction-phase leaves of `buildRelayerRefundRoot` before the
final sort: Phase A over every refund group, then Phase B return-only
leaves. -/
def relayerRefundLeavesWithGroup (d : Dataworker)
    (blockRangesForChains : List (Nat × Nat)) : List RelayerRefundLeafWithGroup :=
  let endBlockForMainnet := (getBlockRangeForChain blockRangesForChains 1
    d.chainIdListForBundleEvaluationBlockNumbers).2
  let out := _loadData d blockRangesForChains
  let poolRebalanceRoot := buildPoolRebalanceRoot d blockRangesForChains
  let groupLeaves := out.fillsToRefund.flatMap
    (fun rc => rc.2.flatMap
      (fun tok => refundGroupLeaves d endBlockForMainnet poolRebalanceRoot.runningBalances
        rc.1 tok.1 tok.2.refunds))
  addReturnOnlyLeaves d endBlockForMainnet poolRebalanceRoot.runningBalances
    poolRebalanceRoot.leaves groupLeaves

/-- Return type of `buildRelayerRefundRoot`. -/
structure RelayerRefundRootResult where
  leaves : List RelayerRefundLeaf
  treeRoot : Root
deriving DecidableEq, Repr

/-- Embedding of `buildRelayerRefundRoot` (lines 229-344): construction
leaves, final sort, id assignment and `groupIndex` removal, then the tree. -/
def buildRelayerRefundRoot (d : Dataworker) (blockRangesForChains : List (Nat × Nat)) :
    RelayerRefundRootResult :=
  let indexedLeaves :=
    ((relayerRefundLeavesWithGroup d blockRangesForChains).mergeSort
      relayerRefundLeafLe).enum.map (fun p => stripGroupIndex p.2 p.1)
  { leaves := indexedLeaves, treeRoot := d.buildRelayerRefundTree indexedLeaves }

/-! ### Pending-bundle validation (`validateRootBundle`, lines 529-754) -/

/-- The empty-Merkle-root sentinel (`EMPTY_MERKLE_ROOT` from `../utils`):
the zero bytes32 value. -/
def EMPTY_MERKLE_ROOT : Root :=
  "0x0000000000000000000000000000000000000000000000000000000000000000"

/-- Pending root bundle as read from the HubPool. -/
structure RootBundle where
  proposer : Nat
  challengePeriodEndTimestamp : Nat
  bundleEvaluationBlockNumbers : List Nat
  unclaimedPoolRebalanceLeafCount : Nat
  poolRebalanceRoot : Root
  relayerRefundRoot : Root
  slowRelayRoot : Root

/-- Everything `validateRootBundle` consults, frozen as a snapshot: client
state, the pending proposal, the widest expected block range, the per-chain
end-block buffers (`blockRangeEndBlockBuffer[chainId] ?? 0` mapped over the
chain-id list, line 591), and the three root rebuilders as deterministic
functions of the implied block ranges (the builders run against clients
freshly constructed at the bundle-end mainnet block, lines 677-700). -/
structure ValidateInput where
  hubPoolIsUpdated : Bool
  hasPendingProposal : Bool
  pendingRootBundle : RootBundle
  currentTime : Nat
  widestPossibleExpectedBlockRange : List (Nat × Nat)
  endBlockBuffers : List Nat
  rebuildPoolRebalance : List (Nat × Nat) → List PoolRebalanceLeaf × Root
  rebuildRelayerRefund : List (Nat × Nat) → Root
  rebuildSlowRelay : List (Nat × Nat) → Root

/-- Exhaustive outcomes of one `validateRootBundle` run, one per exit point
of the source. -/
inductive ValidateOutcome where
  | errorNotUpdated
  | noPendingProposal
  | challengePeriodPassed
  | disputeEmptyPoolRebalanceRoot
  | disputeBlockRangeLength
  | disputeEndBlockBelowStart
  | disputeEndBlockBeyondBuffer
  | deferWithinBuffer
  | disputePoolRebalanceMismatch
  | disputeRelayerRefundMismatch
  | disputeSlowRelayMismatch
  | acceptAllMatch
deriving DecidableEq, Repr

/-- Whether the exit point enqueues a `disputeRootBundle` transaction
(every `_submitDisputeWithMrkdwn` call site); `validateRootBundle` enqueues
no other transaction kind. -/
def ValidateOutcome.enqueuesDispute : ValidateOutcome → Bool
  | .disputeEmptyPoolRebalanceRoot => true
  | .disputeBlockRangeLength => true
  | .disputeEndBlockBelowStart => true
  | .disputeEndBlockBeyondBuffer => true
  | .disputePoolRebalanceMismatch => true
  | .disputeRelayerRefundMismatch => true
  | .disputeSlowRelayMismatch => true
  | _ => false

/-- Whether the exit point lies past the root-rebuilding step (lines
692-700); earlier exits return before any root is rebuilt. -/
def ValidateOutcome.rebuildsRoots : ValidateOutcome → Bool
  | .disputePoolRebalanceMismatch => true
  | .disputeRelayerRefundMismatch => true
  | .disputeSlowRelayMismatch => true
  | .acceptAllMatch => true
  | _ => false

/-- Block ranges implied by the pending bundle's end blocks (lines 661-664):
expected start paired with the pending end, per chain. -/
def impliedBlockRanges (v : ValidateInput) : List (Nat × Nat) :=
  (v.widestPossibleExpectedBlockRange.zip
    v.pendingRootBundle.bundleEvaluationBlockNumbers).map (fun p => (p.1.1, p.2))

/-- Embedding of `validateRootBundle` (lines 529-754) as a decision
procedure over the frozen snapshot, mirroring the source's check order. -/
def validateRootBundle (v : ValidateInput) : ValidateOutcome :=
  if v.hubPoolIsUpdated = false then .errorNotUpdated
  else if v.hasPendingProposal = false then .noPendingProposal
  else if v.currentTime > v.pendingRootBundle.challengePeriodEndTimestamp then
    .challengePeriodPassed
  else if v.pendingRootBundle.poolRebalanceRoot = EMPTY_MERKLE_ROOT then
    .disputeEmptyPoolRebalanceRoot
  else if v.pendingRootBundle.bundleEvaluationBlockNumbers.length ≠
      v.widestPossibleExpectedBlockRange.length then .disputeBlockRangeLength
  else if (v.pendingRootBundle.bundleEvaluationBlockNumbers.zip
      v.widestPossibleExpectedBlockRange).any (fun p => decide (p.1 < p.2.1)) then
    .disputeEndBlockBelowStart
  else if (v.pendingRootBundle.bundleEvaluationBlockNumbers.zip
      v.widestPossibleExpectedBlockRange).any (fun p => decide (p.1 > p.2.2)) then
    if ((v.pendingRootBundle.bundleEvaluationBlockNumbers.zip
        v.widestPossibleExpectedBlockRange).zip v.endBlockBuffers).any
        (fun p => decide (p.1.1 > p.1.2.2 + p.2)) then .disputeEndBlockBeyondBuffer
    else .deferWithinBuffer
  else if (v.rebuildPoolRebalance (impliedBlockRanges v)).1.length ≠
        v.pendingRootBundle.unclaimedPoolRebalanceLeafCount ∨
      (v.rebuildPoolRebalance (impliedBlockRanges v)).2 ≠
        v.pendingRootBundle.poolRebalanceRoot then .disputePoolRebalanceMismatch
  else if v.rebuildRelayerRefund (impliedBlockRanges v) ≠
      v.pendingRootBundle.relayerRefundRoot then .disputeRelayerRefundMismatch
  else if v.rebuildSlowRelay (impliedBlockRanges v) ≠
      v.pendingRootBundle.slowRelayRoot then .disputeSlowRelayMismatch
  else .acceptAllMatch

/-- Whether the three rebuilt roots all equal the pending ones (the root
comparisons of lines 703, 714, 722, leaf count aside). -/
def threeRootsMatch (v : ValidateInput) : Bool :=
  decide ((v.rebuildPoolRebalance (impliedBlockRanges v)).2 =
      v.pendingRootBundle.poolRebalanceRoot) &&
  decide (v.rebuildRelayerRefund (impliedBlockRanges v) =
      v.pendingRootBundle.relayerRefundRoot) &&
  decide (v.rebuildSlowRelay (impliedBlockRanges v) = v.pendingRootBundle.slowRelayRoot)

/-- Whether any comparison of the rebuild step differs: the pool leaf count,
or any of the three roots (lines 701-704, 714, 722). -/
def rebuildMismatch (v : ValidateInput) : Bool :=
  decide ((v.rebuildPoolRebalance (impliedBlockRanges v)).1.length ≠
      v.pendingRootBundle.unclaimedPoolRebalanceLeafCount) ||
  decide ((v.rebuildPoolRebalance (impliedBlockRanges v)).2 ≠
      v.pendingRootBundle.poolRebalanceRoot) ||
  decide (v.rebuildRelayerRefund (impliedBlockRanges v) ≠
      v.pendingRootBundle.relayerRefundRoot) ||
  decide (v.rebuildSlowRelay (impliedBlockRanges v) ≠ v.pendingRootBundle.slowRelayRoot)

/-! ### Concrete instances used by witnesses and counterexamples -/

/-- A concrete slow-relay leaf. -/
def exampleRelayData : RelayData :=
  { depositor := 11, recipient := 12, destinationToken := 13, amount := 1000,
    originChainId := 1, destinationChainId := 10, realizedLpFeePct := 1,
    relayerFeePct := 2, depositId := 7 }

/-- A second slow-relay leaf with the same (originChainId, depositId) key as
`exampleRelayData` but different payload fields. -/
def exampleRelayDataTwin : RelayData :=
  { depositor := 31, recipient := 32, destinationToken := 33, amount := 400,
    originChainId := 1, destinationChainId := 10, realizedLpFeePct := 3,
    relayerFeePct := 4, depositId := 7 }

/-- A concrete pool-rebalance leaf. -/
def examplePoolLeaf : PoolRebalanceLeaf :=
  { chainId := 10, groupIndex := 0, bundleLpFees := [1], netSendAmounts := [5],
    runningBalances := [5], l1Tokens := [21], leafId := 0 }

/-- A concrete Dataworker snapshot with two chains and trivial collaborator
behaviour, used to instantiate hypotheses of the builder theorems. -/
def exampleDataworker : Dataworker :=
  { chainIdListForBundleEvaluationBlockNumbers := [1, 10],
    maxRefundCountOverride := some 2,
    tokenTransferThreshold := [],
    spokeChainIds := [1, 10],
    fillsForOriginChain := fun _ _ => [],
    getDepositForFill := fun _ _ => none,
    getUniqueDepositsInRange := fun _ _ _ _ => [],
    getRefundInformationFromFill := fun f => (f.repaymentChainId, f.destinationToken),
    updateFillsToRefundWithValidFill := fun ftr _ _ _ => ftr,
    updateFillsToRefundWithSlowFill := fun ftr _ _ _ => ftr,
    updateUnfilledDepositsWithMatchedDeposit := fun _ _ m => m,
    flattenAndFilterUnfilledDepositsByOriginChain := fun _ => [],
    getMaxRefundCountForRelayerRefundLeafForBlock := fun _ => 3,
    getTokenTransferThresholdForBlock := fun _ _ => 0,
    getL1TokenCounterpartAtBlock := fun _ token _ => token,
    getDestinationTokenForL1TokenDestinationChainId := fun token _ => token,
    initializeRunningBalancesFromRelayerRepayments := fun _ _ => ([], []),
    subtractExcessFromPreviousSlowFillsFromRunningBalances := fun rb _ => rb,
    updateRunningBalanceForDeposit := fun rb _ _ => rb,
    constructPoolRebalanceLeaves := fun _ _ _ => [],
    getNetSendAmountForL1Token := fun _ runningBalance => runningBalance,
    buildSlowRelayTree := fun _ => "0x51",
    buildRelayerRefundTree := fun _ => "0x52",
    buildPoolRebalanceLeafTree := fun _ => "0x53" }

/-- Rebuilders returning one pool leaf and fixed roots, shared by the
concrete validation snapshots below. -/
def exampleRebuildPool : List (Nat × Nat) → List PoolRebalanceLeaf × Root :=
  fun _ => ([examplePoolLeaf], "0xaa")

/-- Fixed relayer-refund rebuild result. -/
def exampleRebuildRefund : List (Nat × Nat) → Root := fun _ => "0xbb"

/-- Fixed slow-relay rebuild result. -/
def exampleRebuildSlow : List (Nat × Nat) → Root := fun _ => "0xcc"

/-- Validation snapshot whose pending end block 20 exceeds the expected end
10 plus the buffer 5. -/
def exampleValidateBeyondBuffer : ValidateInput :=
  { hubPoolIsUpdated := true,
    hasPendingProposal := true,
    pendingRootBundle :=
      { proposer := 1, challengePeriodEndTimestamp := 100,
        bundleEvaluationBlockNumbers := [20], unclaimedPoolRebalanceLeafCount := 1,
        poolRebalanceRoot := "0xaa", relayerRefundRoot := "0xbb", slowRelayRoot := "0xcc" },
    currentTime := 50,
    widestPossibleExpectedBlockRange := [(0, 10)],
    endBlockBuffers := [5],
    rebuildPoolRebalance := exampleRebuildPool,
    rebuildRelayerRefund := exampleRebuildRefund,
    rebuildSlowRelay := exampleRebuildSlow }

/-- Validation snapshot whose pending end block 13 exceeds the expected end
10 but stays within the buffer 5. -/
def exampleValidateWithinBuffer : ValidateInput :=
  { hubPoolIsUpdated := true,
    hasPendingProposal := true,
    pendingRootBundle :=
      { proposer := 1, challengePeriodEndTimestamp := 100,
        bundleEvaluationBlockNumbers := [13], unclaimedPoolRebalanceLeafCount := 1,
        poolRebalanceRoot := "0xaa", relayerRefundRoot := "0xbb", slowRelayRoot := "0xcc" },
    currentTime := 50,
    widestPossibleExpectedBlockRange := [(0, 10)],
    endBlockBuffers := [5],
    rebuildPoolRebalance := exampleRebuildPool,
    rebuildRelayerRefund := exampleRebuildRefund,
    rebuildSlowRelay := exampleRebuildSlow }

/-- Validation snapshot whose current time equals the challenge period end
exactly. -/
def exampleValidateAtBoundary : ValidateInput :=
  { hubPoolIsUpdated := true,
    hasPendingProposal := true,
    pendingRootBundle :=
      { proposer := 1, challengePeriodEndTimestamp := 100,
        bundleEvaluationBlockNumbers := [10], unclaimedPoolRebalanceLeafCount := 1,
        poolRebalanceRoot := "0xaa", relayerRefundRoot := "0xbb", slowRelayRoot := "0xcc" },
    currentTime := 100,
    widestPossibleExpectedBlockRange := [(0, 10)],
    endBlockBuffers := [0],
    rebuildPoolRebalance := exampleRebuildPool,
    rebuildRelayerRefund := exampleRebuildRefund,
    rebuildSlowRelay := exampleRebuildSlow }

/-- Validation snapshot where the rebuilt pool leaf count (1) differs from
the pending proposal's unclaimed count (2) while all three roots match. -/
def exampleValidateLeafCountMismatch : ValidateInput :=
  { hubPoolIsUpdated := true,
    hasPendingProposal := true,
    pendingRootBundle :=
      { proposer := 1, challengePeriodEndTimestamp := 100,
        bundleEvaluationBlockNumbers := [10], unclaimedPoolRebalanceLeafCount := 2,
        poolRebalanceRoot := "0xaa", relayerRefundRoot := "0xbb", slowRelayRoot := "0xcc" },
    currentTime := 50,
    widestPossibleExpectedBlockRange := [(0, 10)],
    endBlockBuffers := [0],
    rebuildPoolRebalance := exampleRebuildPool,
    rebuildRelayerRefund := exampleRebuildRefund,
    rebuildSlowRelay := exampleRebuildSlow }

/-- Validation snapshot identical to `exampleValidateLeafCountMismatch`;
kept separate so the counterexample of one claim shares no instance with
the theorems of another. -/
def exampleValidateCountMismatchRootsMatch : ValidateInput :=
  { hubPoolIsUpdated := true,
    hasPendingProposal := true,
    pendingRootBundle :=
      { proposer := 1, challengePeriodEndTimestamp := 100,
        bundleEvaluationBlockNumbers := [10], unclaimedPoolRebalanceLeafCount := 2,
        poolRebalanceRoot := "0xaa", relayerRefundRoot := "0xbb", slowRelayRoot := "0xcc" },
    currentTime := 50,
    widestPossibleExpectedBlockRange := [(0, 10)],
    endBlockBuffers := [0],
    rebuildPoolRebalance := exampleRebuildPool,
    rebuildRelayerRefund := exampleRebuildRefund,
    rebuildSlowRelay := exampleRebuildSlow }

/-- Validation snapshot where every rebuild comparison matches. -/
def exampleValidateAllMatch : ValidateInput :=
  { hubPoolIsUpdated := true,
    hasPendingProposal := true,
    pendingRootBundle :=
      { proposer := 1, challengePeriodEndTimestamp := 100,
        bundleEvaluationBlockNumbers := [10], unclaimedPoolRebalanceLeafCount := 1,
        poolRebalanceRoot := "0xaa", relayerRefundRoot := "0xbb", slowRelayRoot := "0xcc" },
    currentTime := 50,
    widestPossibleExpectedBlockRange := [(0, 10)],
    endBlockBuffers := [0],
    rebuildPoolRebalance := exampleRebuildPool,
    rebuildRelayerRefund := exampleRebuildRefund,
    rebuildSlowRelay := exampleRebuildSlow }

/-! ## Theorems -/

/-! ### Helper lemmas -/

/-- A run of characters satisfying `p` followed by one that does not is cut
exactly at the boundary by `takeWhile`. -/
theorem takeWhile_all_append {α : Type} (p : α → Bool) (xs : List α) (y : α) (ys : List α)
    (hxs : xs.all p = true) (hy : p y = false) :
    (xs ++ y :: ys).takeWhile p = xs := by
  induction xs with
  | nil => simp [List.takeWhile_cons, hy]
  | cons a l ih =>
    simp only [List.all_cons, Bool.and_eq_true] at hxs
    simp [List.takeWhile_cons, hxs.1, ih hxs.2]

/-- On a nonempty all-digit integer part followed by a dot, the `parseInt`
model returns exactly the value of the integer part. -/
theorem jsParseInt_digits_dot (intPart fracPart : List Char)
    (hne : intPart ≠ []) (hdig : intPart.all Char.isDigit = true) :
    jsParseInt (String.mk (intPart ++ '.' :: fracPart)) =
      some ((digitsVal intPart : Int)) := by
  obtain ⟨a, rest, rfl⟩ : ∃ a rest, intPart = a :: rest := by
    cases intPart with
    | nil => exact absurd rfl hne
    | cons a rest => exact ⟨a, rest, rfl⟩
  simp only [List.all_cons, Bool.and_eq_true] at hdig
  have hspace : ¬(a = ' ') := by
    intro h; rw [h] at hdig; exact absurd hdig.1 (by decide)
  have hminus : ¬(a = '-') := by
    intro h; rw [h] at hdig; exact absurd hdig.1 (by decide)
  have hplus : ¬(a = '+') := by
    intro h; rw [h] at hdig; exact absurd hdig.1 (by decide)
  have hdata : (String.mk ((a :: rest) ++ '.' :: fracPart)).data =
      a :: (rest ++ '.' :: fracPart) := rfl
  unfold jsParseInt
  rw [hdata, List.dropWhile_cons, if_neg (by simpa using hspace)]
  simp only [if_neg hminus, if_neg hplus]
  have htake : (a :: (rest ++ '.' :: fracPart)).takeWhile Char.isDigit = a :: rest := by
    have := takeWhile_all_append Char.isDigit (a :: rest) '.' fracPart
      (by simp [hdig.1, hdig.2]) (by decide)
    simpa using this
  simp [jsParseDigits, htake]

/-! ### C1: determinism of the three root builders -/

/-- C1: for any fixed snapshot of deposits, fills and configuration (a fixed
`Dataworker` value: clients and block ranges held constant), calling each of
`buildSlowRelayRoot`, `buildRelayerRefundRoot` and `buildPoolRebalanceRoot`
twice yields identical results; each result record carries both the leaf
list and the Merkle root, so leaves and roots agree between the two calls.
In the embedding every builder is a pure function of the snapshot, so the
two invocations coincide definitionally. -/
theorem buildRoots_deterministic (d : Dataworker) (blockRangesForChains : List (Nat × Nat)) :
    buildSlowRelayRoot d blockRangesForChains = buildSlowRelayRoot d blockRangesForChains ∧
    buildRelayerRefundRoot d blockRangesForChains =
      buildRelayerRefundRoot d blockRangesForChains ∧
    buildPoolRebalanceRoot d blockRangesForChains =
      buildPoolRebalanceRoot d blockRangesForChains :=
  ⟨rfl, rfl, rfl⟩

/-! ### C6: the slow-relay comparator -/

/-- C6 (counterexample): the slow-relay comparator invoked on two leaves
with equal `originChainId` and equal `depositId` returns the ordering value
0; it does not raise an error (its source, lines 217-221, has no throw). -/
theorem slowRelayComparator_tie_counterexample :
    exampleRelayData.originChainId = exampleRelayDataTwin.originChainId ∧
    exampleRelayData.depositId = exampleRelayDataTwin.depositId ∧
    slowRelayComparator exampleRelayData exampleRelayDataTwin = 0 := by decide

/-- C6 (amended): the slow-relay comparator orders leaves by
`originChainId` ascending, then by `depositId` ascending; on two leaves with
equal `originChainId` and equal `depositId` it returns 0 (treats them as
equal) rather than raising an error. -/
theorem slowRelayComparator_characterization (relayA relayB : RelayData) :
    (slowRelayComparator relayA relayB < 0 ↔
      (relayA.originChainId < relayB.originChainId ∨
        (relayA.originChainId = relayB.originChainId ∧
          relayA.depositId < relayB.depositId))) ∧
    (slowRelayComparator relayA relayB = 0 ↔
      (relayA.originChainId = relayB.originChainId ∧
        relayA.depositId = relayB.depositId)) ∧
    (0 < slowRelayComparator relayA relayB ↔
      (relayB.originChainId < relayA.originChainId ∨
        (relayA.originChainId = relayB.originChainId ∧
          relayB.depositId < relayA.depositId))) := by
  unfold slowRelayComparator
  by_cases h : relayA.originChainId = relayB.originChainId <;> simp [h] <;> omega

/-! ### C10: `toBN` -/

/-- C10 (counterexample): the input `".5"` contains a dot, yet `toBN` does
not return a big number of any integer prefix: `parseInt(".5")` finds no
digit prefix (`NaN`) and `BigNumber.from` then throws. -/
theorem toBN_dot_counterexample :
    (".5").data.contains '.' = true ∧
    toBN ".5" = Except.error "invalid BigNumber value" := ⟨rfl, rfl⟩

/-- C10 (amended): for an input whose string representation contains a dot,
`toBN` returns `BigNumber.from` of the `parseInt` result: the truncated
integer prefix when that prefix is nonempty and its value lies below the
ethers safe-number bound `MAX_SAFE` (2^53 - 1); an "overflow" error when
the prefix value reaches that bound; and an error when `parseInt` yields
`NaN`.  For an input without a dot, `toBN` returns `BigNumber.from` of the
string unchanged. -/
theorem toBN_truncation (s : String) (intPart fracPart : List Char) :
    (s.data.contains '.' = true → toBN s = bigNumberFromParsedInt (jsParseInt s)) ∧
    (s.data.contains '.' = false → toBN s = bigNumberFromString s) ∧
    (intPart ≠ [] → intPart.all Char.isDigit = true →
      (digitsVal intPart : Int) < MAX_SAFE →
      toBN (String.mk (intPart ++ '.' :: fracPart)) =
        Except.ok ((digitsVal intPart : Int))) ∧
    (intPart ≠ [] → intPart.all Char.isDigit = true →
      MAX_SAFE ≤ (digitsVal intPart : Int) →
      toBN (String.mk (intPart ++ '.' :: fracPart)) = Except.error "overflow") := by
  refine ⟨fun h => ?_, fun h => ?_, fun h1 h2 h3 => ?_, fun h1 h2 h3 => ?_⟩
  · unfold toBN; rw [if_pos h]
  · unfold toBN; rw [if_neg (by rw [h]; exact Bool.false_ne_true)]
  · have hdot : (String.mk (intPart ++ '.' :: fracPart)).data.contains '.' = true := by
      simp
    have hbound : ¬((digitsVal intPart : Int) ≥ MAX_SAFE ∨
        (digitsVal intPart : Int) ≤ -MAX_SAFE) := by
      simp only [MAX_SAFE] at h3 ⊢
      omega
    simp [toBN, hdot, jsParseInt_digits_dot intPart fracPart h1 h2,
      bigNumberFromParsedInt, hbound]
  · have hdot : (String.mk (intPart ++ '.' :: fracPart)).data.contains '.' = true := by
      simp
    have hbound : ((digitsVal intPart : Int) ≥ MAX_SAFE ∨
        (digitsVal intPart : Int) ≤ -MAX_SAFE) := Or.inl h3
    simp [toBN, hdot, jsParseInt_digits_dot intPart fracPart h1 h2,
      bigNumberFromParsedInt, hbound]

/-- C10 (witness): `toBN "3.75"` truncates to 3; the 16-digit prefix of
`"9007199254740991.5"` reaches the safe-number bound and overflows; the
dot-free input `"42"` goes to `BigNumber.from` unchanged. -/
theorem toBN_truncation_witness :
    toBN (String.mk (['3'] ++ '.' :: ['7', '5'])) = Except.ok 3 ∧
    toBN (String.mk (['9', '0', '0', '7', '1', '9', '9', '2', '5', '4', '7', '4', '0',
      '9', '9', '1'] ++ '.' :: ['5'])) = Except.error "overflow" ∧
    toBN "42" = bigNumberFromString "42" :=
  ⟨(toBN_truncation (String.mk (['3'] ++ '.' :: ['7', '5'])) ['3']
      ['7', '5']).2.2.1 (by decide) (by decide) (by decide),
   (toBN_truncation (String.mk (['9', '0', '0', '7', '1', '9', '9', '2', '5', '4', '7',
      '4', '0', '9', '9', '1'] ++ '.' :: ['5']))
      ['9', '0', '0', '7', '1', '9', '9', '2', '5', '4', '7', '4', '0', '9', '9', '1']
      ['5']).2.2.2 (by decide) (by decide) (by decide),
   (toBN_truncation "42" [] []).2.1 (by decide)⟩

/-! ### Helper lemmas for the validation state machine -/

/-- Indexed characterization of `List.any` over a zip of two lists of equal
length, with `getD` indexing. -/
theorem any_zip_iff {α β : Type} (da : α) (db : β) (l1 : List α) (l2 : List β)
    (f : α × β → Bool) (h : l1.length = l2.length) :
    ((l1.zip l2).any f = true) ↔
      ∃ i, i < l1.length ∧ f (l1.getD i da, l2.getD i db) = true := by
  rw [List.any_eq_true]
  constructor
  · rintro ⟨x, hx, hp⟩
    obtain ⟨i, hi, hx'⟩ := List.mem_iff_getElem.mp hx
    have hlen := hi
    rw [List.length_zip] at hlen
    have hi1 : i < l1.length := by omega
    have hi2 : i < l2.length := by omega
    refine ⟨i, hi1, ?_⟩
    rw [List.getD_eq_getElem l1 da hi1, List.getD_eq_getElem l2 db hi2]
    have hzip : (l1.zip l2)[i] = (l1[i], l2[i]) := List.getElem_zip
    rw [hzip] at hx'
    rw [← hx'] at hp
    exact hp
  · rintro ⟨i, hi, hp⟩
    have hi2 : i < l2.length := by omega
    have hiz : i < (l1.zip l2).length := by rw [List.length_zip]; omega
    refine ⟨(l1.zip l2)[i], List.getElem_mem hiz, ?_⟩
    have hzip : (l1.zip l2)[i] = (l1[i], l2[i]) := List.getElem_zip
    rw [hzip]
    rw [List.getD_eq_getElem l1 da hi, List.getD_eq_getElem l2 db hi2] at hp
    exact hp

/-- The `getD` of a zip is the pair of the `getD`s, for an in-bounds index. -/
theorem zip_getD {α β : Type} (da : α) (db : β) (l1 : List α) (l2 : List β) (i : Nat)
    (h1 : i < l1.length) (h2 : i < l2.length) :
    (l1.zip l2).getD i (da, db) = (l1.getD i da, l2.getD i db) := by
  have hiz : i < (l1.zip l2).length := by rw [List.length_zip]; omega
  rw [List.getD_eq_getElem _ _ hiz, List.getD_eq_getElem _ _ h1,
    List.getD_eq_getElem _ _ h2, List.getElem_zip]

/-- Indexed characterization of `List.any` over a zip of three lists of equal
length, with `getD` indexing. -/
theorem any_zip3_iff {α β γ : Type} (da : α) (db : β) (dc : γ) (l1 : List α) (l2 : List β)
    (l3 : List γ) (f : (α × β) × γ → Bool) (h12 : l1.length = l2.length)
    (h13 : l1.length = l3.length) :
    (((l1.zip l2).zip l3).any f = true) ↔
      ∃ i, i < l1.length ∧ f ((l1.getD i da, l2.getD i db), l3.getD i dc) = true := by
  rw [any_zip_iff (da, db) dc (l1.zip l2) l3 f (by rw [List.length_zip]; omega)]
  constructor
  · rintro ⟨i, hi, hp⟩
    have hiz := hi
    rw [List.length_zip] at hiz
    have hi1 : i < l1.length := by omega
    refine ⟨i, hi1, ?_⟩
    rw [zip_getD da db l1 l2 i hi1 (by omega)] at hp
    exact hp
  · rintro ⟨i, hi, hp⟩
    refine ⟨i, by rw [List.length_zip]; omega, ?_⟩
    rw [zip_getD da db l1 l2 i hi (by omega)]
    exact hp

/-! ### C9: exact challenge-period boundary -/

/-- C9: when the HubPool client's current time exactly equals the pending
proposal's `challengePeriodEndTimestamp`, `validateRootBundle` does not take
the quiet challenge-window-expired exit (the comparison at line 550 is a
strict greater-than) and proceeds to evaluate the pending bundle. -/
theorem validate_challenge_boundary (v : ValidateInput)
    (h1 : v.hubPoolIsUpdated = true)
    (h2 : v.hasPendingProposal = true)
    (h3 : v.currentTime = v.pendingRootBundle.challengePeriodEndTimestamp) :
    validateRootBundle v ≠ ValidateOutcome.challengePeriodPassed := by
  unfold validateRootBundle
  rw [if_neg (by simp [h1]), if_neg (by simp [h2]), if_neg (by omega)]
  repeat' split
  all_goals simp

/-- C9 (witness): at a snapshot whose current time equals the challenge end
exactly, the outcome is not the challenge-expired exit. -/
theorem validate_challenge_boundary_witness :
    validateRootBundle exampleValidateAtBoundary ≠ ValidateOutcome.challengePeriodPassed :=
  validate_challenge_boundary exampleValidateAtBoundary rfl rfl rfl

/-! ### C2: end-block discipline with buffers -/

/-- C2: for a pending proposal that passes the earlier checks (pending
exists, challenge window open, non-empty pool rebalance root, correct
block-range length, no end block below its expected start block): if some
pending end block exceeds `expectedEnd + buffer` for its chain,
`validateRootBundle` enqueues a `disputeRootBundle` transaction; if every
end block is at most `expectedEnd + buffer` but some exceeds `expectedEnd`,
it returns without enqueuing any transaction and without rebuilding roots. -/
theorem validate_end_block_buffer_policy (v : ValidateInput)
    (h1 : v.hubPoolIsUpdated = true)
    (h2 : v.hasPendingProposal = true)
    (h3 : v.currentTime ≤ v.pendingRootBundle.challengePeriodEndTimestamp)
    (h4 : v.pendingRootBundle.poolRebalanceRoot ≠ EMPTY_MERKLE_ROOT)
    (h5 : v.pendingRootBundle.bundleEvaluationBlockNumbers.length =
      v.widestPossibleExpectedBlockRange.length)
    (h6 : v.endBlockBuffers.length = v.widestPossibleExpectedBlockRange.length)
    (h7 : ∀ i, i < v.pendingRootBundle.bundleEvaluationBlockNumbers.length →
      ¬(v.pendingRootBundle.bundleEvaluationBlockNumbers.getD i 0 <
        (v.widestPossibleExpectedBlockRange.getD i (0, 0)).1)) :
    ((∃ i, i < v.pendingRootBundle.bundleEvaluationBlockNumbers.length ∧
        (v.widestPossibleExpectedBlockRange.getD i (0, 0)).2 + v.endBlockBuffers.getD i 0 <
          v.pendingRootBundle.bundleEvaluationBlockNumbers.getD i 0) →
      validateRootBundle v = ValidateOutcome.disputeEndBlockBeyondBuffer ∧
        (validateRootBundle v).enqueuesDispute = true) ∧
    (((∀ i, i < v.pendingRootBundle.bundleEvaluationBlockNumbers.length →
        v.pendingRootBundle.bundleEvaluationBlockNumbers.getD i 0 ≤
          (v.widestPossibleExpectedBlockRange.getD i (0, 0)).2 + v.endBlockBuffers.getD i 0) ∧
      (∃ i, i < v.pendingRootBundle.bundleEvaluationBlockNumbers.length ∧
        (v.widestPossibleExpectedBlockRange.getD i (0, 0)).2 <
          v.pendingRootBundle.bundleEvaluationBlockNumbers.getD i 0)) →
      validateRootBundle v = ValidateOutcome.deferWithinBuffer ∧
        (validateRootBundle v).enqueuesDispute = false ∧
        (validateRootBundle v).rebuildsRoots = false) := by
  have hbuf : v.pendingRootBundle.bundleEvaluationBlockNumbers.length =
      v.endBlockBuffers.length := by omega
  have hbelow : ¬((v.pendingRootBundle.bundleEvaluationBlockNumbers.zip
      v.widestPossibleExpectedBlockRange).any (fun p => decide (p.1 < p.2.1)) = true) := by
    intro hc
    obtain ⟨i, hi, hp⟩ := (any_zip_iff 0 (0, 0) _ _ _ h5).mp hc
    simp only [decide_eq_true_eq] at hp
    exact h7 i hi hp
  constructor
  · rintro ⟨i, hi, hgt⟩
    have houter : ((v.pendingRootBundle.bundleEvaluationBlockNumbers.zip
        v.widestPossibleExpectedBlockRange).any (fun p => decide (p.1 > p.2.2)) = true) :=
      (any_zip_iff 0 (0, 0) _ _ _ h5).mpr ⟨i, hi, by
        show decide (v.pendingRootBundle.bundleEvaluationBlockNumbers.getD i 0 >
          (v.widestPossibleExpectedBlockRange.getD i (0, 0)).2) = true
        exact decide_eq_true (by omega)⟩
    have hinner : (((v.pendingRootBundle.bundleEvaluationBlockNumbers.zip
        v.widestPossibleExpectedBlockRange).zip v.endBlockBuffers).any
        (fun p => decide (p.1.1 > p.1.2.2 + p.2)) = true) :=
      (any_zip3_iff 0 (0, 0) 0 _ _ _ _ h5 hbuf).mpr ⟨i, hi, by
        show decide (v.pendingRootBundle.bundleEvaluationBlockNumbers.getD i 0 >
          (v.widestPossibleExpectedBlockRange.getD i (0, 0)).2 +
            v.endBlockBuffers.getD i 0) = true
        exact decide_eq_true (by omega)⟩
    have hval : validateRootBundle v = ValidateOutcome.disputeEndBlockBeyondBuffer := by
      unfold validateRootBundle
      rw [if_neg (by simp [h1]), if_neg (by simp [h2]), if_neg (by omega), if_neg h4,
        if_neg (by omega), if_neg hbelow, if_pos houter, if_pos hinner]
    exact ⟨hval, by rw [hval]; rfl⟩
  · rintro ⟨hall, i, hi, hgt⟩
    have houter : ((v.pendingRootBundle.bundleEvaluationBlockNumbers.zip
        v.widestPossibleExpectedBlockRange).any (fun p => decide (p.1 > p.2.2)) = true) :=
      (any_zip_iff 0 (0, 0) _ _ _ h5).mpr ⟨i, hi, by
        show decide (v.pendingRootBundle.bundleEvaluationBlockNumbers.getD i 0 >
          (v.widestPossibleExpectedBlockRange.getD i (0, 0)).2) = true
        exact decide_eq_true (by omega)⟩
    have hinner : ¬(((v.pendingRootBundle.bundleEvaluationBlockNumbers.zip
        v.widestPossibleExpectedBlockRange).zip v.endBlockBuffers).any
        (fun p => decide (p.1.1 > p.1.2.2 + p.2)) = true) := by
      intro hc
      obtain ⟨j, hj, hp⟩ := (any_zip3_iff 0 (0, 0) 0 _ _ _ _ h5 hbuf).mp hc
      simp only [decide_eq_true_eq, gt_iff_lt] at hp
      have := hall j hj
      omega
    have hval : validateRootBundle v = ValidateOutcome.deferWithinBuffer := by
      unfold validateRootBundle
      rw [if_neg (by simp [h1]), if_neg (by simp [h2]), if_neg (by omega), if_neg h4,
        if_neg (by omega), if_neg hbelow, if_pos houter, if_neg hinner]
    exact ⟨hval, by rw [hval]; rfl, by rw [hval]; rfl⟩

/-- C2 (witness): end block 20 against expected end 10 with buffer 5 is
disputed; end block 13 against the same range is deferred quietly. -/
theorem validate_end_block_buffer_policy_witness :
    validateRootBundle exampleValidateBeyondBuffer =
      ValidateOutcome.disputeEndBlockBeyondBuffer ∧
    validateRootBundle exampleValidateWithinBuffer = ValidateOutcome.deferWithinBuffer :=
  ⟨((validate_end_block_buffer_policy exampleValidateBeyondBuffer rfl rfl (by decide)
      (by decide) (by decide) (by decide) (by decide)).1 ⟨0, by decide, by decide⟩).1,
   ((validate_end_block_buffer_policy exampleValidateWithinBuffer rfl rfl (by decide)
      (by decide) (by decide) (by decide) (by decide)).2
      ⟨by decide, 0, by decide, by decide⟩).1⟩

/-! ### C8: pool leaf count mismatch -/

/-- C8: for a pending proposal that reaches the root-rebuilding step, if the
number of rebuilt pool-rebalance leaves differs from the pending proposal's
`unclaimedPoolRebalanceLeafCount`, `validateRootBundle` enqueues a
`disputeRootBundle` transaction even when all three rebuilt roots equal the
pending ones (line 702 disputes on `leaves.length !==
unclaimedPoolRebalanceLeafCount` before comparing further roots); the
conclusion records the root agreement via `threeRootsMatch`. -/
theorem validate_leaf_count_mismatch_disputes (v : ValidateInput)
    (h1 : v.hubPoolIsUpdated = true)
    (h2 : v.hasPendingProposal = true)
    (h3 : v.currentTime ≤ v.pendingRootBundle.challengePeriodEndTimestamp)
    (h4 : v.pendingRootBundle.poolRebalanceRoot ≠ EMPTY_MERKLE_ROOT)
    (h5 : v.pendingRootBundle.bundleEvaluationBlockNumbers.length =
      v.widestPossibleExpectedBlockRange.length)
    (h7 : ∀ i, i < v.pendingRootBundle.bundleEvaluationBlockNumbers.length →
      ¬(v.pendingRootBundle.bundleEvaluationBlockNumbers.getD i 0 <
        (v.widestPossibleExpectedBlockRange.getD i (0, 0)).1))
    (h8 : ∀ i, i < v.pendingRootBundle.bundleEvaluationBlockNumbers.length →
      v.pendingRootBundle.bundleEvaluationBlockNumbers.getD i 0 ≤
        (v.widestPossibleExpectedBlockRange.getD i (0, 0)).2)
    (hcount : (v.rebuildPoolRebalance (impliedBlockRanges v)).1.length ≠
      v.pendingRootBundle.unclaimedPoolRebalanceLeafCount)
    (hroot1 : (v.rebuildPoolRebalance (impliedBlockRanges v)).2 =
      v.pendingRootBundle.poolRebalanceRoot)
    (hroot2 : v.rebuildRelayerRefund (impliedBlockRanges v) =
      v.pendingRootBundle.relayerRefundRoot)
    (hroot3 : v.rebuildSlowRelay (impliedBlockRanges v) =
      v.pendingRootBundle.slowRelayRoot) :
    validateRootBundle v = ValidateOutcome.disputePoolRebalanceMismatch ∧
    (validateRootBundle v).enqueuesDispute = true ∧
    threeRootsMatch v = true := by
  have hbelow : ¬((v.pendingRootBundle.bundleEvaluationBlockNumbers.zip
      v.widestPossibleExpectedBlockRange).any (fun p => decide (p.1 < p.2.1)) = true) := by
    intro hc
    obtain ⟨i, hi, hp⟩ := (any_zip_iff 0 (0, 0) _ _ _ h5).mp hc
    simp only [decide_eq_true_eq] at hp
    exact h7 i hi hp
  have hupper : ¬((v.pendingRootBundle.bundleEvaluationBlockNumbers.zip
      v.widestPossibleExpectedBlockRange).any (fun p => decide (p.1 > p.2.2)) = true) := by
    intro hc
    obtain ⟨i, hi, hp⟩ := (any_zip_iff 0 (0, 0) _ _ _ h5).mp hc
    simp only [decide_eq_true_eq, gt_iff_lt] at hp
    have := h8 i hi
    omega
  have hval : validateRootBundle v = ValidateOutcome.disputePoolRebalanceMismatch := by
    unfold validateRootBundle
    rw [if_neg (by simp [h1]), if_neg (by simp [h2]), if_neg (by omega), if_neg h4,
      if_neg (by omega), if_neg hbelow, if_neg hupper, if_pos (Or.inl hcount)]
  exact ⟨hval, by rw [hval]; rfl, by simp [threeRootsMatch, hroot1, hroot2, hroot3]⟩

/-- C8 (witness): one rebuilt pool leaf against a pending count of two,
matching roots: the snapshot is disputed. -/
theorem validate_leaf_count_mismatch_disputes_witness :
    validateRootBundle exampleValidateLeafCountMismatch =
      ValidateOutcome.disputePoolRebalanceMismatch ∧
    (validateRootBundle exampleValidateLeafCountMismatch).enqueuesDispute = true ∧
    threeRootsMatch exampleValidateLeafCountMismatch = true :=
  validate_leaf_count_mismatch_disputes exampleValidateLeafCountMismatch rfl rfl
    (by decide) (by decide) (by decide) (by decide) (by decide) (by decide) rfl rfl rfl

/-! ### C3: dispute iff a rebuild comparison differs -/

/-- C3 (counterexample): a pending proposal whose three roots all equal the
rebuilt ones is nevertheless disputed, because the rebuilt pool leaf count
(1) differs from the pending `unclaimedPoolRebalanceLeafCount` (2); so
"dispute iff some rebuilt root differs" fails in the only-if direction. -/
theorem validate_roots_match_still_disputes_counterexample :
    threeRootsMatch exampleValidateCountMismatchRootsMatch = true ∧
    validateRootBundle exampleValidateCountMismatchRootsMatch =
      ValidateOutcome.disputePoolRebalanceMismatch ∧
    (validateRootBundle exampleValidateCountMismatchRootsMatch).enqueuesDispute = true :=
  ⟨rfl, rfl, rfl⟩

/-- C3 (amended): for a pending proposal that reaches the root-rebuilding
step, `validateRootBundle` enqueues a dispute if and only if some rebuild
comparison differs: the pool leaf count against
`unclaimedPoolRebalanceLeafCount`, or any of the three rebuilt roots against
the pending ones; when the leaf count and all three roots match it enqueues
no transaction. -/
theorem validate_dispute_iff_rebuild_mismatch (v : ValidateInput)
    (h1 : v.hubPoolIsUpdated = true)
    (h2 : v.hasPendingProposal = true)
    (h3 : v.currentTime ≤ v.pendingRootBundle.challengePeriodEndTimestamp)
    (h4 : v.pendingRootBundle.poolRebalanceRoot ≠ EMPTY_MERKLE_ROOT)
    (h5 : v.pendingRootBundle.bundleEvaluationBlockNumbers.length =
      v.widestPossibleExpectedBlockRange.length)
    (h7 : ∀ i, i < v.pendingRootBundle.bundleEvaluationBlockNumbers.length →
      ¬(v.pendingRootBundle.bundleEvaluationBlockNumbers.getD i 0 <
        (v.widestPossibleExpectedBlockRange.getD i (0, 0)).1))
    (h8 : ∀ i, i < v.pendingRootBundle.bundleEvaluationBlockNumbers.length →
      v.pendingRootBundle.bundleEvaluationBlockNumbers.getD i 0 ≤
        (v.widestPossibleExpectedBlockRange.getD i (0, 0)).2) :
    ((validateRootBundle v).enqueuesDispute = true ↔ rebuildMismatch v = true) := by
  have hbelow : ¬((v.pendingRootBundle.bundleEvaluationBlockNumbers.zip
      v.widestPossibleExpectedBlockRange).any (fun p => decide (p.1 < p.2.1)) = true) := by
    intro hc
    obtain ⟨i, hi, hp⟩ := (any_zip_iff 0 (0, 0) _ _ _ h5).mp hc
    simp only [decide_eq_true_eq] at hp
    exact h7 i hi hp
  have hupper : ¬((v.pendingRootBundle.bundleEvaluationBlockNumbers.zip
      v.widestPossibleExpectedBlockRange).any (fun p => decide (p.1 > p.2.2)) = true) := by
    intro hc
    obtain ⟨i, hi, hp⟩ := (any_zip_iff 0 (0, 0) _ _ _ h5).mp hc
    simp only [decide_eq_true_eq, gt_iff_lt] at hp
    have := h8 i hi
    omega
  unfold validateRootBundle
  rw [if_neg (by simp [h1]), if_neg (by simp [h2]), if_neg (by omega), if_neg h4,
    if_neg (by omega), if_neg hbelow, if_neg hupper]
  by_cases hA : ((v.rebuildPoolRebalance (impliedBlockRanges v)).1.length ≠
      v.pendingRootBundle.unclaimedPoolRebalanceLeafCount ∨
    (v.rebuildPoolRebalance (impliedBlockRanges v)).2 ≠
      v.pendingRootBundle.poolRebalanceRoot)
  · rw [if_pos hA]
    rcases hA with hA | hA <;>
      simp [ValidateOutcome.enqueuesDispute, rebuildMismatch, hA]
  · rw [if_neg hA]
    push_neg at hA
    by_cases hB : v.rebuildRelayerRefund (impliedBlockRanges v) ≠
        v.pendingRootBundle.relayerRefundRoot
    · rw [if_pos hB]
      simp [ValidateOutcome.enqueuesDispute, rebuildMismatch, hA.1, hA.2, hB]
    · rw [if_neg hB]
      push_neg at hB
      by_cases hC : v.rebuildSlowRelay (impliedBlockRanges v) ≠
          v.pendingRootBundle.slowRelayRoot
      · rw [if_pos hC]
        simp [ValidateOutcome.enqueuesDispute, rebuildMismatch, hA.1, hA.2, hB, hC]
      · rw [if_neg hC]
        push_neg at hC
        simp [ValidateOutcome.enqueuesDispute, rebuildMismatch, hA.1, hA.2, hB, hC]

/-- C3 (witness): at a snapshot where every rebuild comparison matches, the
equivalence instantiates and no dispute transaction is enqueued. -/
theorem validate_dispute_iff_rebuild_mismatch_witness :
    ((validateRootBundle exampleValidateAllMatch).enqueuesDispute = true ↔
      rebuildMismatch exampleValidateAllMatch = true) :=
  validate_dispute_iff_rebuild_mismatch exampleValidateAllMatch rfl rfl (by decide)
    (by decide) (by decide) (by decide) (by decide)

/-! ### C7: fill classification in `_loadData` -/

/-- One `processFill` step touches `allInvalidFills` exactly for fills with
no matching deposit. -/
theorem processFill_allInvalidFills (d : Dataworker) (r : Nat × Nat) (o : Nat)
    (st : LoadState) (f : FillWithBlock) :
    (processFill d r o st f).allInvalidFills =
      st.allInvalidFills ++
        (if classifyFill d r o f = FillClass.invalid then [f] else []) := by
  unfold processFill classifyFill
  cases d.getDepositForFill o f with
  | none => simp
  | some dep =>
    by_cases hr : f.blockNumber > r.2 ∨ f.blockNumber < r.1 <;> simp [hr]

/-- One `processFill` step appends to `allValidFills` exactly the fills with
a matching deposit, in range or not. -/
theorem processFill_allValidFills (d : Dataworker) (r : Nat × Nat) (o : Nat)
    (st : LoadState) (f : FillWithBlock) :
    (processFill d r o st f).allValidFills =
      st.allValidFills ++
        (if classifyFill d r o f = FillClass.invalid then [] else [f]) := by
  unfold processFill classifyFill
  cases d.getDepositForFill o f with
  | none => simp
  | some dep =>
    by_cases hr : f.blockNumber > r.2 ∨ f.blockNumber < r.1 <;> simp [hr]

/-- One `processFill` step credits exactly the valid in-range fills. -/
theorem processFill_creditedFills (d : Dataworker) (r : Nat × Nat) (o : Nat)
    (st : LoadState) (f : FillWithBlock) :
    (processFill d r o st f).creditedFills =
      st.creditedFills ++
        (if classifyFill d r o f = FillClass.validInRange then [f] else []) := by
  unfold processFill classifyFill
  cases d.getDepositForFill o f with
  | none => simp
  | some dep =>
    by_cases hr : f.blockNumber > r.2 ∨ f.blockNumber < r.1 <;> simp [hr]

/-- One `processFill` step changes `fillsToRefund` only for a valid in-range
fill, and then exactly by `applyRefundCredits`. -/
theorem processFill_fillsToRefund (d : Dataworker) (r : Nat × Nat) (o : Nat)
    (st : LoadState) (f : FillWithBlock) :
    (processFill d r o st f).fillsToRefund =
      if classifyFill d r o f = FillClass.validInRange then
        applyRefundCredits d st.fillsToRefund f
      else st.fillsToRefund := by
  unfold processFill classifyFill
  cases d.getDepositForFill o f with
  | none => simp
  | some dep =>
    by_cases hr : f.blockNumber > r.2 ∨ f.blockNumber < r.1 <;> simp [hr]

/-- One `processFill` step changes the unfilled-deposit bookkeeping only
for a valid in-range fill, and then exactly by
`applyUnfilledDepositUpdate`; invalid and valid-out-of-range fills leave it
untouched. -/
theorem processFill_unfilledDeposits (d : Dataworker) (r : Nat × Nat) (o : Nat)
    (st : LoadState) (f : FillWithBlock) :
    (processFill d r o st f).unfilledDepositsForOriginChain =
      if classifyFill d r o f = FillClass.validInRange then
        applyUnfilledDepositUpdate d o st.unfilledDepositsForOriginChain f
      else st.unfilledDepositsForOriginChain := by
  unfold processFill classifyFill applyUnfilledDepositUpdate
  cases d.getDepositForFill o f with
  | none => simp
  | some dep =>
    by_cases hr : f.blockNumber > r.2 ∨ f.blockNumber < r.1 <;> simp [hr]

/-- C7: every fill iterated by `_loadData` from a destination SpokePool
client falls into exactly one of the three classes of `classifyFill`
(invalid / valid-out-of-range / valid-in-range), and over any fill list the
loop records the invalid ones exactly in the invalid-fills list, appends
exactly the valid ones to `allValidFills` regardless of range, credits into
`fillsToRefund` exactly the valid in-range ones, and builds both
`fillsToRefund` and the unfilled-deposit bookkeeping from the valid
in-range fills alone: invalid and valid-out-of-range fills contribute to
neither. -/
theorem loadData_fill_classification (d : Dataworker) (blockRangeForChain : Nat × Nat)
    (originChainId : Nat) (fills : List FillWithBlock) (st : LoadState) :
    (processFillsForOriginChain d blockRangeForChain originChainId st fills).allInvalidFills =
        st.allInvalidFills ++ fills.filter (fun f =>
          decide (classifyFill d blockRangeForChain originChainId f = FillClass.invalid)) ∧
    (processFillsForOriginChain d blockRangeForChain originChainId st fills).allValidFills =
        st.allValidFills ++ fills.filter (fun f =>
          decide (classifyFill d blockRangeForChain originChainId f ≠ FillClass.invalid)) ∧
    (processFillsForOriginChain d blockRangeForChain originChainId st fills).creditedFills =
        st.creditedFills ++ fills.filter (fun f =>
          decide (classifyFill d blockRangeForChain originChainId f =
            FillClass.validInRange)) ∧
    (processFillsForOriginChain d blockRangeForChain originChainId st fills).fillsToRefund =
        (fills.filter (fun f =>
          decide (classifyFill d blockRangeForChain originChainId f =
            FillClass.validInRange))).foldl (applyRefundCredits d) st.fillsToRefund ∧
    (processFillsForOriginChain d blockRangeForChain originChainId st
          fills).unfilledDepositsForOriginChain =
        (fills.filter (fun f =>
          decide (classifyFill d blockRangeForChain originChainId f =
            FillClass.validInRange))).foldl (applyUnfilledDepositUpdate d originChainId)
          st.unfilledDepositsForOriginChain := by
  induction fills generalizing st with
  | nil => simp [processFillsForOriginChain]
  | cons f fs ih =>
    obtain ⟨ih1, ih2, ih3, ih4, ih5⟩ :=
      ih (processFill d blockRangeForChain originChainId st f)
    simp only [processFillsForOriginChain, List.foldl_cons, List.filter_cons]
      at ih1 ih2 ih3 ih4 ih5 ⊢
    refine ⟨?_, ?_, ?_, ?_, ?_⟩
    · rw [ih1, processFill_allInvalidFills]
      by_cases h : classifyFill d blockRangeForChain originChainId f = FillClass.invalid <;>
        simp [h]
    · rw [ih2, processFill_allValidFills]
      by_cases h : classifyFill d blockRangeForChain originChainId f = FillClass.invalid <;>
        simp [h]
    · rw [ih3, processFill_creditedFills]
      by_cases h : classifyFill d blockRangeForChain originChainId f =
          FillClass.validInRange <;> simp [h]
    · rw [ih4, processFill_fillsToRefund]
      by_cases h : classifyFill d blockRangeForChain originChainId f =
          FillClass.validInRange <;> simp [h]
    · rw [ih5, processFill_unfilledDeposits]
      by_cases h : classifyFill d blockRangeForChain originChainId f =
          FillClass.validInRange <;> simp [h]

/-! ### C4: refund-group chunking -/

/-- Structure of every sub-leaf emitted by the chunking loop: bounded slice
size, index-aligned amounts, the group's chain and token, a groupIndex at or
past the running offset, and the full amount exactly on the offset-0
sub-leaf. -/
theorem chunkRefunds_mem (m : Nat) (amt : Int) (chain : Nat) (tok : Nat)
    (refunds : List (Nat × Int)) :
    ∀ (i : Nat) (addrs : List Nat) (leaf : RelayerRefundLeafWithGroup),
      leaf ∈ chunkRefunds m amt chain tok refunds i addrs →
      (leaf.refundAddresses.length ≤ m ∧
       leaf.refundAmounts = leaf.refundAddresses.map (lookupRefund refunds) ∧
       leaf.chainId = chain ∧ leaf.l2TokenAddress = tok ∧
       i ≤ leaf.groupIndex ∧
       leaf.amountToReturn = (if leaf.groupIndex = 0 then amt else 0)) := by
  intro i addrs
  induction i, addrs using chunkRefunds.induct m amt chain tok refunds with
  | case1 i =>
    intro leaf h
    simp [chunkRefunds] at h
  | case2 i a rest ih =>
    intro leaf h
    rw [chunkRefunds] at h
    rcases List.mem_cons.mp h with rfl | htail
    · refine ⟨?_, rfl, rfl, rfl, le_refl _, rfl⟩
      simp only [List.length_take]
      omega
    · obtain ⟨hlen, hamts, hchain, htok, hge, hamt⟩ := ih leaf htail
      exact ⟨hlen, hamts, hchain, htok, by omega, hamt⟩

/-- The chunking loop partitions its address list: concatenating the
`refundAddresses` of the emitted sub-leaves restores the input, for every
positive refund-count cap. -/
theorem chunkRefunds_join (m : Nat) (hm : 0 < m) (amt : Int) (chain : Nat) (tok : Nat)
    (refunds : List (Nat × Int)) :
    ∀ (i : Nat) (addrs : List Nat),
      (chunkRefunds m amt chain tok refunds i addrs).flatMap
        (fun leaf => leaf.refundAddresses) = addrs := by
  intro i addrs
  induction i, addrs using chunkRefunds.induct m amt chain tok refunds with
  | case1 i => simp [chunkRefunds]
  | case2 i a rest ih =>
    rw [chunkRefunds]
    simp only [List.flatMap_cons, ih]
    obtain ⟨k, rfl⟩ : ∃ k, m = k + 1 := ⟨m - 1, by omega⟩
    simp only [List.take_succ_cons, Nat.add_sub_cancel, List.cons_append, List.cons.injEq,
      true_and]
    exact List.take_append_drop k rest

/-- The first sub-leaf emitted for a nonempty group carries `groupIndex` 0
and the full amount to return. -/
theorem chunkRefunds_head (m : Nat) (amt : Int) (chain : Nat) (tok : Nat)
    (refunds : List (Nat × Int)) (addrs : List Nat) (leaf : RelayerRefundLeafWithGroup)
    (h : (chunkRefunds m amt chain tok refunds 0 addrs).head? = some leaf) :
    leaf.groupIndex = 0 ∧ leaf.amountToReturn = amt := by
  cases addrs with
  | nil => simp [chunkRefunds] at h
  | cons a rest =>
    rw [chunkRefunds] at h
    simp only [List.head?_cons, Option.some.injEq] at h
    subst h
    exact ⟨rfl, rfl⟩

/-- C4: for every (repaymentChainId, l2TokenAddress) refund group,
`buildRelayerRefundRoot`'s group phase (`refundGroupLeaves`) partitions the
sorted recipient list into sub-leaves each holding at most `maxRefundCount`
recipients with index-aligned amounts; the first sub-leaf (start offset 0)
carries `amountToReturn = max(-netSendAmount, 0)` computed from the
running balance via the transfer-threshold policy, and every subsequent
sub-leaf carries `amountToReturn = 0`. -/
theorem refundGroupLeaves_chunking (d : Dataworker) (endBlockForMainnet : Nat)
    (runningBalances : RunningBalances) (repaymentChainId : Nat) (l2TokenAddress : Nat)
    (refunds : List (Nat × Int))
    (hmax : 0 < maxRefundCountFor d endBlockForMainnet) :
    (∀ leaf ∈ refundGroupLeaves d endBlockForMainnet runningBalances repaymentChainId
        l2TokenAddress refunds,
      leaf.refundAddresses.length ≤ maxRefundCountFor d endBlockForMainnet ∧
      leaf.refundAmounts = leaf.refundAddresses.map (lookupRefund refunds) ∧
      leaf.amountToReturn = (if leaf.groupIndex = 0 then
        _getAmountToReturnForRelayerRefundLeaf d endBlockForMainnet repaymentChainId
          l2TokenAddress runningBalances else 0)) ∧
    ((refundGroupLeaves d endBlockForMainnet runningBalances repaymentChainId
        l2TokenAddress refunds).flatMap (fun leaf => leaf.refundAddresses) =
      sortedRefundAddressesFor refunds) ∧
    (∀ leaf, (refundGroupLeaves d endBlockForMainnet runningBalances repaymentChainId
        l2TokenAddress refunds).head? = some leaf →
      leaf.groupIndex = 0 ∧ leaf.amountToReturn =
        _getAmountToReturnForRelayerRefundLeaf d endBlockForMainnet repaymentChainId
          l2TokenAddress runningBalances) ∧
    _getAmountToReturnForRelayerRefundLeaf d endBlockForMainnet repaymentChainId
        l2TokenAddress runningBalances =
      max (-(netSendAmountForLeaf d endBlockForMainnet repaymentChainId l2TokenAddress
        runningBalances)) 0 := by
  refine ⟨?_, ?_, ?_, ?_⟩
  · intro leaf hleaf
    obtain ⟨hlen, hamts, _, _, _, hamt⟩ :=
      chunkRefunds_mem (maxRefundCountFor d endBlockForMainnet)
        (_getAmountToReturnForRelayerRefundLeaf d endBlockForMainnet repaymentChainId
          l2TokenAddress runningBalances) repaymentChainId l2TokenAddress refunds 0
        (sortedRefundAddressesFor refunds) leaf hleaf
    exact ⟨hlen, hamts, hamt⟩
  · exact chunkRefunds_join (maxRefundCountFor d endBlockForMainnet) hmax
      (_getAmountToReturnForRelayerRefundLeaf d endBlockForMainnet repaymentChainId
        l2TokenAddress runningBalances) repaymentChainId l2TokenAddress refunds 0
      (sortedRefundAddressesFor refunds)
  · intro leaf h
    exact chunkRefunds_head (maxRefundCountFor d endBlockForMainnet)
      (_getAmountToReturnForRelayerRefundLeaf d endBlockForMainnet repaymentChainId
        l2TokenAddress runningBalances) repaymentChainId l2TokenAddress refunds
      (sortedRefundAddressesFor refunds) leaf h
  · simp only [_getAmountToReturnForRelayerRefundLeaf]
    rw [max_def]
    split <;> split <;> omega

/-- C4 (witness): at a concrete snapshot the refund-count cap is positive
and the amount to return equals `max(-netSendAmount, 0)`. -/
theorem refundGroupLeaves_chunking_witness :
    0 < maxRefundCountFor exampleDataworker 100 ∧
    _getAmountToReturnForRelayerRefundLeaf exampleDataworker 100 10 21 [] =
      max (-(netSendAmountForLeaf exampleDataworker 100 10 21 [])) 0 :=
  ⟨by decide,
   (refundGroupLeaves_chunking exampleDataworker 100 [] 10 21 [] (by decide)).2.2.2⟩

/-! ### C5: final relayer-refund leaf order -/

/-- The final-sort order is the lexicographic order on
(chainId, l2TokenAddress, groupIndex). -/
theorem relayerRefundLeafLe_iff (leafA leafB : RelayerRefundLeafWithGroup) :
    relayerRefundLeafLe leafA leafB = true ↔
      (leafA.chainId < leafB.chainId ∨ (leafA.chainId = leafB.chainId ∧
        (leafA.l2TokenAddress < leafB.l2TokenAddress ∨
          (leafA.l2TokenAddress = leafB.l2TokenAddress ∧
            leafA.groupIndex ≤ leafB.groupIndex)))) := by
  unfold relayerRefundLeafLe compareAddresses
  by_cases h1 : leafA.chainId = leafB.chainId
  · by_cases h2 : leafA.l2TokenAddress < leafB.l2TokenAddress
    · simp [h1, h2]
    · by_cases h3 : leafB.l2TokenAddress < leafA.l2TokenAddress
      · simp [h1, h2, h3]
        omega
      · simp [h1, h2, h3]
        omega
  · simp [h1]

/-- Transitivity of the final-sort order. -/
theorem relayerRefundLeafLe_trans (a b c : RelayerRefundLeafWithGroup)
    (hab : relayerRefundLeafLe a b = true) (hbc : relayerRefundLeafLe b c = true) :
    relayerRefundLeafLe a c = true := by
  rw [relayerRefundLeafLe_iff] at hab hbc ⊢
  omega

/-- Totality of the final-sort order. -/
theorem relayerRefundLeafLe_total (a b : RelayerRefundLeafWithGroup) :
    (relayerRefundLeafLe a b || relayerRefundLeafLe b a) = true := by
  rw [Bool.or_eq_true, relayerRefundLeafLe_iff, relayerRefundLeafLe_iff]
  omega

/-- Second components of `enumFrom` entries are members of the underlying
list. -/
theorem snd_mem_of_mem_enumFrom {α : Type} :
    ∀ (l : List α) (n : Nat) (p : Nat × α), p ∈ List.enumFrom n l → p.2 ∈ l := by
  intro l
  induction l with
  | nil =>
    intro n p h
    simp [List.enumFrom] at h
  | cons a t ih =>
    intro n p h
    rw [List.enumFrom] at h
    rcases List.mem_cons.mp h with rfl | h
    · simp
    · exact List.mem_cons_of_mem _ (ih (n + 1) p h)

/-- A pairwise relation on a list lifts to its `enumFrom` enumeration. -/
theorem pairwise_enumFrom {α : Type} {R : α → α → Prop} :
    ∀ (l : List α) (n : Nat), List.Pairwise R l →
      List.Pairwise (fun p q : Nat × α => R p.2 q.2) (List.enumFrom n l) := by
  intro l
  induction l with
  | nil =>
    intro n _
    simp [List.enumFrom]
  | cons a t ih =>
    intro n h
    rw [List.pairwise_cons] at h
    rw [List.enumFrom]
    refine List.Pairwise.cons ?_ (ih (n + 1) h.2)
    intro q hq
    exact h.1 q.2 (snd_mem_of_mem_enumFrom t (n + 1) q hq)

/-- C5: the final leaf list returned by `buildRelayerRefundRoot` is the
`groupIndex`-discarding projection of the construction leaves sorted by
chainId ascending, then canonical l2 token address ascending, then
groupIndex ascending; `leafId` values are assigned 0, 1, 2, ... in that
traversal order; and the final leaves (of type `RelayerRefundLeaf`, which
has no `groupIndex` field) are pairwise ordered by (chainId,
l2TokenAddress). -/
theorem buildRelayerRefundRoot_leaf_order (d : Dataworker)
    (blockRangesForChains : List (Nat × Nat)) :
    ((buildRelayerRefundRoot d blockRangesForChains).leaves.map
        (fun leaf => leaf.leafId) =
      List.range (buildRelayerRefundRoot d blockRangesForChains).leaves.length) ∧
    List.Pairwise (fun leafA leafB : RelayerRefundLeaf =>
        leafA.chainId < leafB.chainId ∨ (leafA.chainId = leafB.chainId ∧
          leafA.l2TokenAddress ≤ leafB.l2TokenAddress))
      (buildRelayerRefundRoot d blockRangesForChains).leaves ∧
    List.Pairwise (fun leafA leafB => relayerRefundLeafLe leafA leafB = true)
      ((relayerRefundLeavesWithGroup d blockRangesForChains).mergeSort
        relayerRefundLeafLe) ∧
    (buildRelayerRefundRoot d blockRangesForChains).leaves =
      ((relayerRefundLeavesWithGroup d blockRangesForChains).mergeSort
        relayerRefundLeafLe).enum.map (fun p => stripGroupIndex p.2 p.1) := by
  have hsorted : List.Pairwise (fun a b => relayerRefundLeafLe a b = true)
      ((relayerRefundLeavesWithGroup d blockRangesForChains).mergeSort
        relayerRefundLeafLe) :=
    List.sorted_mergeSort relayerRefundLeafLe_trans relayerRefundLeafLe_total
      (relayerRefundLeavesWithGroup d blockRangesForChains)
  have hout : (buildRelayerRefundRoot d blockRangesForChains).leaves =
      ((relayerRefundLeavesWithGroup d blockRangesForChains).mergeSort
        relayerRefundLeafLe).enum.map (fun p => stripGroupIndex p.2 p.1) := rfl
  refine ⟨?_, ?_, hsorted, hout⟩
  · rw [hout, List.map_map, List.length_map]
    have hcomp : ((fun leaf : RelayerRefundLeaf => leaf.leafId) ∘
        (fun p : Nat × RelayerRefundLeafWithGroup => stripGroupIndex p.2 p.1)) =
        Prod.fst := by
      funext p
      rfl
    rw [hcomp, List.enum_map_fst, List.enum_length]
  · rw [hout]
    refine List.Pairwise.map _ ?_
      (pairwise_enumFrom ((relayerRefundLeavesWithGroup d blockRangesForChains).mergeSort
        relayerRefundLeafLe) 0 hsorted)
    intro p q hpq
    rw [relayerRefundLeafLe_iff] at hpq
    simp only [stripGroupIndex]
    omega
